import Mathlib

/-!
# Contract-test harness embedding for the LinguApp testsprite scripts

Each Python script under `testsprite_tests/` issues HTTP requests against an
external backend and asserts on the responses.  We embed every script as a
function of an abstract `Backend : Request → Option HttpResponse` (where
`none` models a raised `requests.RequestException`) that replays the script's
assertions in order and returns its outcome.  Decoded JSON bodies are
modelled by the `Json` type; `Json.null` plays the role of Python's `None`
(which is what `json.loads` produces for a JSON `null`).
-/

namespace LinguApp

/-- Decoded JSON value, as produced by `response.json()`.  `null` doubles as
Python's `None`. Numbers are modelled as rationals (the scripts only compare
them for equality and order against `0` and `1`). -/
inductive Json where
  | null : Json
  | bool : Bool → Json
  | num : Rat → Json
  | str : String → Json
  | arr : List Json → Json
  | obj : List (String × Json) → Json

/-- HTTP method used by the scripts. -/
inductive Method where
  | get | post | put
deriving DecidableEq

/-- An HTTP request as a script builds it: method, path, query parameters
(`params=` keyword), JSON payload (`json=` keyword) and multipart file parts
(`files=` keyword, recorded as field name, file name, content type). -/
structure Request where
  method : Method
  path : String
  params : List (String × String) := []
  body : Option Json := none
  files : List (String × String × String) := []

/-- A received HTTP response: status code, and the decoded JSON body
(`none` when the body is not decodable JSON, i.e. `.json()` raises
`ValueError`). -/
structure HttpResponse where
  status : Nat
  body : Option Json

/-- The backend under test, as observed by one script run: every request the
script issues gets either a response or a transport failure
(`requests.RequestException`), modelled as `none`. -/
def Backend := Request → Option HttpResponse

/-- Outcome of running one script: all assertions passed; the script stopped
with a failure message reporting a transport problem (`RequestException`
branch); the script stopped with an assertion on the response contents; or
the script died with an uncaught non-assertion exception (`ValueError`,
`TypeError`, `AttributeError`). -/
inductive Outcome where
  | pass | failTransport | failAssert | crash
deriving DecidableEq

/-- Python `==` between a decoded value and one of the scalar constants the
scripts compare against (`None`, booleans, numbers, strings).  Mirrors
Python's numeric tower: `True == 1` and `False == 0` hold. -/
def pyEqScalar : Json → Json → Bool
  | .null, .null => true
  | .bool a, .bool b => a == b
  | .bool a, .num q => (if a then (1 : Rat) else 0) == q
  | .num q, .bool b => q == (if b then (1 : Rat) else 0)
  | .num a, .num b => a == b
  | .str a, .str b => a == b
  | _, _ => false

/-- Substring test on character lists (the empty list is a substring of
everything, as in Python). -/
def listInfix (sub : List Char) : List Char → Bool
  | [] => sub.isPrefixOf []
  | c :: tl => sub.isPrefixOf (c :: tl) || listInfix sub tl

/-- Python `k in j` on a decoded value `j`: key test on dicts, element
membership (via `==`) on lists, substring test on strings; `none` models the
`TypeError` raised on the remaining types. -/
def pyIn (j : Json) (k : String) : Option Bool :=
  match j with
  | .obj kvs => some (kvs.lookup k).isSome
  | .arr xs => some (xs.any fun x => pyEqScalar x (.str k))
  | .str s => some (listInfix k.data s.data)
  | _ => none

/-- Python subscript `j[k]` with a string key: lookup on dicts (the scripts
always guard it with `k in j`), `none` models the `TypeError`/`KeyError`
raised otherwise. -/
def pyIndex (j : Json) (k : String) : Option Json :=
  match j with
  | .obj kvs => kvs.lookup k
  | _ => none

/-- Python `j.get(k, d)` (dict method).  The outer `none` models the
`AttributeError` raised when `j` is not a dict; `Json.null` plays Python's
`None` in the result. -/
def pyGetD (j : Json) (k : String) (d : Json) : Option Json :=
  match j with
  | .obj kvs => some ((kvs.lookup k).getD d)
  | _ => none

/-- Python `j.get(k)` — default `None`. -/
def pyGet (j : Json) (k : String) : Option Json := pyGetD j k .null

/-- Python truthiness of a decoded value. -/
def pyTruthy : Json → Bool
  | .null => false
  | .bool b => b
  | .num q => q != 0
  | .str s => s != ""
  | .arr xs => !xs.isEmpty
  | .obj kvs => !kvs.isEmpty

/-- `isinstance(·, dict)` -/
def Json.isObj : Json → Bool
  | .obj _ => true
  | _ => false

/-- `isinstance(·, list)` -/
def Json.isArr : Json → Bool
  | .arr _ => true
  | _ => false

/-- `isinstance(·, str)` -/
def Json.isStr : Json → Bool
  | .str _ => true
  | _ => false

/-- `isinstance(·, (float, int))` — Python booleans are ints, so they count. -/
def Json.isPyNum : Json → Bool
  | .num _ => true
  | .bool _ => true
  | _ => false

/-! ## The requests the scripts build

Paths are given relative to `BASE_URL`; credentials are the environment
defaults hard-wired in the scripts. -/

/-- TC001: `POST /auth/signin` with the valid credentials. -/
def signinValidReq : Request :=
  { method := .post, path := "/auth/signin",
    body := some (.obj [("email", .str "test@example.com"),
                        ("password", .str "password123")]) }

/-- TC001: `POST /auth/signin`, invalid email with valid password. -/
def signinInvalidEmailReq : Request :=
  { method := .post, path := "/auth/signin",
    body := some (.obj [("email", .str "invaliduser@example.com"),
                        ("password", .str "password123")]) }

/-- TC001: `POST /auth/signin`, valid email with invalid password. -/
def signinInvalidPasswordReq : Request :=
  { method := .post, path := "/auth/signin",
    body := some (.obj [("email", .str "test@example.com"),
                        ("password", .str "wrongpassword")]) }

/-- The empty-JSON-object request to a given endpoint (claim C3 speaks about
these even for endpoints whose script never sends one). -/
def emptyObjReq (m : Method) (p : String) : Request :=
  { method := m, path := p, body := some (.obj []) }

/-! ## TC001 — `test_signin_with_valid_and_invalid_credentials` -/

/-- TC001 lines 31–40: the assertions run against the valid-credentials
response `res_valid`. -/
def checkValidSignin (r : HttpResponse) : Outcome :=
  if r.status != 200 then .failAssert
  else match r.body with
  | none => .failAssert
  | some jd =>
    match pyIn jd "user" with
    | none => .crash
    | some hu =>
      if !hu then .failAssert
      else match pyIndex jd "user" with
      | none => .crash
      | some u =>
        if !u.isObj then .failAssert
        else match pyIn jd "token" with
        | none => .crash
        | some ht =>
          if !ht then .failAssert
          else match pyIndex jd "token" with
          | none => .crash
          | some t =>
            match t with
            | .str s => if s.length > 0 then .pass else .failAssert
            | _ => .failAssert

/-- TC001 lines 68–77: the optional error-shape check on an
invalid-credentials response; an undecodable body is ignored
(`except ValueError: pass`). -/
def checkErrorShape (r : HttpResponse) : Outcome :=
  match r.body with
  | none => .pass
  | some (.obj kvs) =>
    if (kvs.lookup "error").isSome || (kvs.lookup "message").isSome
        || (kvs.lookup "detail").isSome || kvs.isEmpty then .pass
    else .failAssert
  | some _ => .failAssert

/-- Full run of TC001, returning the outcome together with the requests the
script actually issued, in program order (an assertion failure stops the
script, so later requests are never sent). -/
def tc001RunTr (B : Backend) : Outcome × List Request :=
  match B signinValidReq with
  | none => (.failTransport, [signinValidReq])
  | some r1 =>
    match checkValidSignin r1 with
    | .pass =>
      match B signinInvalidEmailReq with
      | none => (.failTransport, [signinValidReq, signinInvalidEmailReq])
      | some r2 =>
        if r2.status == 200 then
          (.failAssert, [signinValidReq, signinInvalidEmailReq])
        else
          match B signinInvalidPasswordReq with
          | none => (.failTransport,
              [signinValidReq, signinInvalidEmailReq, signinInvalidPasswordReq])
          | some r3 =>
            if r3.status == 200 then
              (.failAssert,
                [signinValidReq, signinInvalidEmailReq, signinInvalidPasswordReq])
            else
              match checkErrorShape r2 with
              | .pass => (checkErrorShape r3,
                  [signinValidReq, signinInvalidEmailReq, signinInvalidPasswordReq])
              | o => (o,
                  [signinValidReq, signinInvalidEmailReq, signinInvalidPasswordReq])
    | o => (o, [signinValidReq])

/-- Outcome of TC001. -/
def tc001Run (B : Backend) : Outcome := (tc001RunTr B).1

/-- Claim C1's wording of the valid-credentials contract: status 200 and a
JSON-object body with an object under `user` and a non-empty string under
`token`. -/
def c1ValidContract (r : HttpResponse) : Prop :=
  r.status = 200 ∧ ∃ kvs, r.body = some (Json.obj kvs) ∧
    (∃ u, kvs.lookup "user" = some (Json.obj u)) ∧
    (∃ t, kvs.lookup "token" = some (Json.str t) ∧ t ≠ "")

/-- A string has positive length exactly when it is not empty. -/
theorem strLenPos (s : String) : 0 < s.length ↔ s ≠ "" := by
  obtain ⟨l⟩ := s
  constructor
  · intro h he
    rw [he] at h
    exact absurd h (by decide)
  · intro h
    rcases l with _ | ⟨c, cs⟩
    · exact absurd rfl h
    · show 0 < (c :: cs).length
      simp

/-- The valid-credentials stage of TC001 succeeds exactly on responses
meeting C1's contract. -/
theorem checkValidSignin_pass_iff (r : HttpResponse) :
    checkValidSignin r = .pass ↔ c1ValidContract r := by
  obtain ⟨s, b⟩ := r
  by_cases hs : s = 200
  · subst hs
    rcases b with _ | jd
    · simp [checkValidSignin, c1ValidContract]
    · cases jd with
      | null => simp [checkValidSignin, c1ValidContract, pyIn]
      | bool c => simp [checkValidSignin, c1ValidContract, pyIn]
      | num q => simp [checkValidSignin, c1ValidContract, pyIn]
      | str s' =>
        constructor
        · intro h
          simp only [checkValidSignin, pyIn, pyIndex] at h
          split at h <;> (try split at h) <;> simp_all
        · rintro ⟨-, kvs, hkvs, -⟩
          simp at hkvs
      | arr xs =>
        constructor
        · intro h
          simp only [checkValidSignin, pyIn, pyIndex] at h
          split at h <;> (try split at h) <;> simp_all
        · rintro ⟨-, kvs, hkvs, -⟩
          simp at hkvs
      | obj kvs =>
        rcases hku : kvs.lookup "user" with _ | u
        · simp [checkValidSignin, c1ValidContract, pyIn, pyIndex, hku]
        · rcases hkt : kvs.lookup "token" with _ | t
          · simp [checkValidSignin, c1ValidContract, pyIn, pyIndex, hku, hkt]
          · cases u <;> cases t <;>
              simp [checkValidSignin, c1ValidContract, pyIn, pyIndex, hku, hkt,
                Json.isObj, strLenPos]
  · constructor
    · intro h
      exfalso
      simp only [checkValidSignin] at h
      rw [if_pos (by simpa using hs)] at h
      simp at h
    · rintro ⟨h200, -⟩
      exact absurd h200 hs

/-- A full pass of TC001 forces both invalid-credential responses to have
status different from 200. -/
theorem tc001_pass_invalid (B : Backend) (h : tc001Run B = .pass) :
    (∃ r, B signinInvalidEmailReq = some r ∧ r.status ≠ 200) ∧
    (∃ r, B signinInvalidPasswordReq = some r ∧ r.status ≠ 200) := by
  unfold tc001Run tc001RunTr at h
  split at h
  · simp at h
  · rename_i r1 h1
    split at h
    · split at h
      · simp at h
      · rename_i r2 h2
        split at h
        · simp at h
        · rename_i h2s
          split at h
          · simp at h
          · rename_i r3 h3
            split at h
            · simp at h
            · rename_i h3s
              exact ⟨⟨r2, h2, by simpa using h2s⟩, ⟨r3, h3, by simpa using h3s⟩⟩
    · rename_i o hne
      simp at h
      exact absurd h hne

/-- Field lookup inside a request's JSON body (used to build concrete
backends). -/
def bodyField (req : Request) (k : String) : Option Json :=
  match req.body with
  | some (.obj kvs) => kvs.lookup k
  | _ => none

/-- A backend on which TC001 passes: correct credentials get a 200 with a
`user` object and a token, anything else gets a 401 with an empty body. -/
def goodSigninBackend : Backend := fun req =>
  match bodyField req "email", bodyField req "password" with
  | some (.str e), some (.str p) =>
    if e == "test@example.com" && p == "password123" then
      some ⟨200, some (.obj [("user", .obj [("id", .str "u1")]),
                             ("token", .str "tok123")])⟩
    else some ⟨401, none⟩
  | _, _ => some ⟨400, none⟩

/-- **C1**: TC001's valid-credentials check passes iff the signin response has
status 200 and a JSON-object body whose `user` is an object and whose `token`
is a non-empty string; and when the whole scenario passes, the invalid-email
and invalid-password responses each have status different from 200. -/
theorem C1_signin_valid_and_invalid :
    (∀ r, checkValidSignin r = .pass ↔ c1ValidContract r) ∧
    (∀ B, tc001Run B = .pass →
      (∃ r, B signinInvalidEmailReq = some r ∧ r.status ≠ 200) ∧
      (∃ r, B signinInvalidPasswordReq = some r ∧ r.status ≠ 200)) :=
  ⟨checkValidSignin_pass_iff, tc001_pass_invalid⟩

/-- Witness for C1: a concrete backend on which TC001 passes, with the
hypotheses discharged by evaluation. -/
theorem C1_signin_valid_and_invalid_witness :
    tc001Run goodSigninBackend = .pass ∧
    ((∃ r, goodSigninBackend signinInvalidEmailReq = some r ∧ r.status ≠ 200) ∧
     (∃ r, goodSigninBackend signinInvalidPasswordReq = some r ∧ r.status ≠ 200)) :=
  ⟨by decide, C1_signin_valid_and_invalid.2 goodSigninBackend (by decide)⟩

/-! ## TC002 — `test_signup_with_valid_and_invalid_data` -/

/-- TC002: the valid signup payload (the email embeds a fresh uuid). -/
def signupValidReq (uuid : String) : Request :=
  { method := .post, path := "/auth/signup",
    body := some (.obj [("name", .str "Test User"),
                        ("email", .str ("testuser_" ++ uuid ++ "@example.com")),
                        ("password", .str "ValidPass123")]) }

/-- TC002 lines 22–29: the six invalid signup payloads, in order. -/
def signupInvalidBodies : List Json :=
  [ .obj [],
    .obj [("name", .str "NoEmailUser"), ("password", .str "ValidPass123")],
    .obj [("email", .str "no_name@example.com"), ("password", .str "ValidPass123")],
    .obj [("name", .str "NoPasswordUser"), ("email", .str "nopassword@example.com")],
    .obj [("name", .str "ShortPass"), ("email", .str "shortpass@example.com"),
          ("password", .str "short")],
    .obj [("name", .str "InvalidEmail"), ("email", .str "invalidemail"),
          ("password", .str "ValidPass123")] ]

/-- An arbitrary `POST /auth/signup` request with JSON body `b`. -/
def signupReq (b : Json) : Request :=
  { method := .post, path := "/auth/signup", body := some b }

/-- TC002 lines 42–45: the `user_id` capture.  `false` marks the `TypeError`
crash raised when `resp_json["user"]` is not a container. -/
def idCaptureOk (rj : Json) : Bool :=
  if (pyIn rj "id").getD false then true
  else if (pyIn rj "user").getD false then
    match pyIndex rj "user" with
    | some u => (pyIn u "id").isSome
    | none => false
  else true

/-- TC002 lines 46–47: `resp_json.get(k, resp_json.get("user", {}).get(k))
== expected`; Python evaluates the default (and may crash in it) first. -/
def tc002EchoCheck (rj : Json) (k : String) (expected : String) : Bool :=
  match pyGetD rj "user" (.obj []) with
  | none => false
  | some u =>
    match pyGet u k with
    | none => false
    | some d =>
      match pyGetD rj k d with
      | none => false
      | some v => pyEqScalar v (.str expected)

/-- Whether TC002 (`test_signup_with_valid_and_invalid_data`) runs to the end
with every assertion satisfied.  `false` covers both a failed assertion and
an uncaught exception (the script has no `except` clause, only `finally`). -/
def tc002Passes (B : Backend) (uuid : String) : Bool :=
  match B (signupValidReq uuid) with
  | none => false
  | some resp =>
    (resp.status == 201 || resp.status == 200) &&
    (match resp.body with
     | none => false
     | some rj =>
       rj.isObj &&
       ((pyIn rj "id").getD false || (pyIn rj "user").getD false) &&
       idCaptureOk rj &&
       tc002EchoCheck rj "name" "Test User" &&
       tc002EchoCheck rj "email" ("testuser_" ++ uuid ++ "@example.com") &&
       signupInvalidBodies.all fun b =>
         match B (signupReq b) with
         | none => false
         | some resp2 => decide (400 ≤ resp2.status ∧ resp2.status < 500))

/-! ## TC008 — `test_update_user_language_settings` -/

/-- An arbitrary `PUT /user/language-settings` request with JSON body `b`. -/
def settingsPutReq (b : Json) : Request :=
  { method := .put, path := "/user/language-settings", body := some b }

/-- TC008's valid payload, in the script's key order. -/
def settingsEchoPairs : List (String × Json) :=
  [("mainLanguage", .str "en"), ("targetLanguage", .str "fr"),
   ("showTranslations", .bool true), ("showPhonetics", .bool false)]

/-- TC008's valid payload as a JSON body. -/
def settingsValidBody : Json := .obj settingsEchoPairs

/-- TC008 lines 32–38: the five invalid payloads, in order. -/
def settingsInvalidBodies : List Json :=
  [ .obj [],
    .obj [("mainLanguage", .num 123), ("targetLanguage", .str "fr"),
          ("showTranslations", .bool true), ("showPhonetics", .bool false)],
    .obj [("mainLanguage", .str "en"), ("targetLanguage", .null),
          ("showTranslations", .bool true), ("showPhonetics", .bool false)],
    .obj [("mainLanguage", .str "en"), ("targetLanguage", .str "fr"),
          ("showTranslations", .str "yes"), ("showPhonetics", .bool false)],
    .obj [("mainLanguage", .str "en"), ("targetLanguage", .str "fr"),
          ("showTranslations", .bool true)] ]

/-- Whether TC008 (`test_update_user_language_settings`) runs to the end with
every assertion satisfied. -/
def tc008Passes (B : Backend) : Bool :=
  match B (settingsPutReq settingsValidBody) with
  | none => false
  | some resp =>
    resp.status == 200 &&
    (match resp.body with
     | none => false
     | some rj =>
       (settingsEchoPairs.all fun p =>
         (pyIn rj p.1).getD false &&
         match pyIndex rj p.1 with
         | some v => pyEqScalar v p.2
         | none => false) &&
       settingsInvalidBodies.all fun b =>
         match B (settingsPutReq b) with
         | none => false
         | some r2 => decide (400 ≤ r2.status ∧ r2.status < 500))

/-! ## C9 — failure isolation -/

/-- String field of a request body (for telling concrete requests apart). -/
def fieldStrOf (r : Request) (k : String) : String :=
  match bodyField r k with
  | some (.str s) => s
  | _ => ""

/-- A backend on which every endpoint is broken: 500 with an undecodable
body everywhere. -/
def allFiveHundred : Backend := fun _ => some ⟨500, none⟩

/-- **C9 counterexample**: against a backend whose every endpoint answers
500, TC001 stops at its first failed check — the run ends with that one
assertion failure, and the invalid-credentials requests are never issued, so
their checks are not executed and nothing is aggregated. -/
theorem C9_counterexample :
    tc001RunTr allFiveHundred = (.failAssert, [signinValidReq]) ∧
    signinInvalidEmailReq ∉ (tc001RunTr allFiveHundred).2 ∧
    signinInvalidPasswordReq ∉ (tc001RunTr allFiveHundred).2 := by
  refine ⟨rfl, ?_, ?_⟩
  · intro hmem
    have h := List.mem_singleton.mp hmem
    exact absurd (congrArg (fieldStrOf · "email") h) (by decide)
  · intro hmem
    have h := List.mem_singleton.mp hmem
    exact absurd (congrArg (fieldStrOf · "password") h) (by decide)

/-- **C9 amended**: failures are not isolated — the first failed check aborts
the script at once.  If the valid-credentials response has status ≠ 200, the
script ends with a single assertion failure and only that first request was
ever issued; the remaining checks never run and no aggregate report exists. -/
theorem C9_first_failure_aborts (B : Backend) (r : HttpResponse)
    (h1 : B signinValidReq = some r) (h2 : r.status ≠ 200) :
    tc001RunTr B = (.failAssert, [signinValidReq]) := by
  have hc : checkValidSignin r = .failAssert := by
    unfold checkValidSignin
    rw [if_pos (by simpa using h2)]
  simp [tc001RunTr, h1, hc]

/-- Witness for C9's amended theorem at the all-500 backend. -/
theorem C9_first_failure_aborts_witness :
    tc001RunTr allFiveHundred = (.failAssert, [signinValidReq]) :=
  C9_first_failure_aborts allFiveHundred ⟨500, none⟩ rfl (by decide)

/-! ## C3 — empty-object boundary checks -/

/-- A backend that answers 200 to any empty-object request, accepts the valid
credentials and rejects the invalid ones: TC001 passes on it even though the
empty-object signin status is 200. -/
def c3Backend : Backend := fun req =>
  match req.body with
  | some (.obj []) => some ⟨200, none⟩
  | _ =>
    match bodyField req "email", bodyField req "password" with
    | some (.str e), some (.str p) =>
      if e == "test@example.com" && p == "password123" then
        some ⟨200, some (.obj [("user", .obj []), ("token", .str "t1")])⟩
      else some ⟨401, none⟩
    | _, _ => some ⟨404, none⟩

/-- **C3 counterexample**: the signin script never submits the empty object,
so its passing does not constrain that response: TC001 passes against a
backend whose empty-object signin response has status 200 ∉ [400,500). -/
theorem C3_counterexample :
    tc001Run c3Backend = .pass ∧
    c3Backend (emptyObjReq .post "/auth/signin") = some ⟨200, none⟩ ∧
    ¬(400 ≤ 200 ∧ (200 : Nat) < 500) :=
  ⟨by decide, rfl, by decide⟩

/-- **C3 amended**: the signup and settings-update scripts do check that the
empty JSON object draws a status in [400,500); the signin script issues no
empty-object request at all (see the counterexample). -/
theorem C3_empty_object_checks :
    (∀ B uuid, tc002Passes B uuid = true →
      ∃ r, B (signupReq (.obj [])) = some r ∧ 400 ≤ r.status ∧ r.status < 500) ∧
    (∀ B, tc008Passes B = true →
      ∃ r, B (settingsPutReq (.obj [])) = some r ∧ 400 ≤ r.status ∧ r.status < 500) := by
  constructor
  · intro B uuid h
    unfold tc002Passes at h
    split at h
    · simp at h
    · rename_i resp h1
      simp only [Bool.and_eq_true] at h
      obtain ⟨-, h⟩ := h
      split at h
      · simp at h
      · rename_i rj hb
        simp only [Bool.and_eq_true, and_assoc] at h
        obtain ⟨-, -, -, -, -, hall⟩ := h
        rw [List.all_eq_true] at hall
        have hone := hall (.obj []) (by simp [signupInvalidBodies])
        split at hone
        · simp at hone
        · rename_i r2 h2
          exact ⟨r2, h2, by simpa using hone⟩
  · intro B h
    unfold tc008Passes at h
    split at h
    · simp at h
    · rename_i resp h1
      simp only [Bool.and_eq_true] at h
      obtain ⟨-, h⟩ := h
      split at h
      · simp at h
      · rename_i rj hb
        simp only [Bool.and_eq_true, and_assoc] at h
        obtain ⟨-, hall⟩ := h
        rw [List.all_eq_true] at hall
        have hone := hall (.obj []) (by simp [settingsInvalidBodies])
        split at hone
        · simp at hone
        · rename_i r2 h2
          exact ⟨r2, h2, by simpa using hone⟩

/-- A backend on which TC002 passes (valid signup gets a 201 with id, name
and email; everything else gets a 422). -/
def goodSignupBackend : Backend := fun req =>
  match bodyField req "name" with
  | some (.str "Test User") =>
    some ⟨201, some (.obj [("id", .str "id1"), ("name", .str "Test User"),
                           ("email", .str "testuser_u@example.com")])⟩
  | _ => some ⟨422, none⟩

/-- A backend on which TC008 passes: the valid settings payload is echoed
back exactly, every other payload gets a 400. -/
def goodSettingsBackend : Backend := fun req =>
  match bodyField req "showTranslations", bodyField req "showPhonetics" with
  | some (.bool true), some (.bool false) =>
    (match bodyField req "mainLanguage", bodyField req "targetLanguage" with
     | some (.str "en"), some (.str "fr") => some ⟨200, some settingsValidBody⟩
     | _, _ => some ⟨400, none⟩)
  | _, _ => some ⟨400, none⟩

/-- Witness for C3's amended theorem at concrete passing backends. -/
theorem C3_empty_object_checks_witness :
    (∃ r, goodSignupBackend (signupReq (.obj [])) = some r ∧
       400 ≤ r.status ∧ r.status < 500) ∧
    (∃ r, goodSettingsBackend (settingsPutReq (.obj [])) = some r ∧
       400 ≤ r.status ∧ r.status < 500) :=
  ⟨C3_empty_object_checks.1 goodSignupBackend "u" (by decide),
   C3_empty_object_checks.2 goodSettingsBackend (by decide)⟩

/-! ## C2 — settings echo round-trip -/

/-- A backend that echoes the two submitted booleans as the numbers 1 and 0
(Python-equal but not identical JSON values). -/
def looseEchoBackend : Backend := fun req =>
  match bodyField req "showTranslations", bodyField req "showPhonetics" with
  | some (.bool true), some (.bool false) =>
    (match bodyField req "mainLanguage", bodyField req "targetLanguage" with
     | some (.str "en"), some (.str "fr") =>
       some ⟨200, some (.obj [("mainLanguage", .str "en"),
                              ("targetLanguage", .str "fr"),
                              ("showTranslations", .num 1),
                              ("showPhonetics", .num 0)])⟩
     | _, _ => some ⟨400, none⟩)
  | _, _ => some ⟨400, none⟩

/-- **C2 counterexample**: TC008 passes against a backend that echoes the
number 1 for the submitted boolean `true` (Python's `1 == True`), so a pass
does not force the echoed values to be exactly the submitted ones. -/
theorem C2_counterexample :
    tc008Passes looseEchoBackend = true ∧
    looseEchoBackend (settingsPutReq settingsValidBody) =
      some ⟨200, some (.obj [("mainLanguage", .str "en"),
                             ("targetLanguage", .str "fr"),
                             ("showTranslations", .num 1),
                             ("showPhonetics", .num 0)])⟩ ∧
    Json.num 1 ≠ Json.bool true :=
  ⟨by decide, rfl, fun h => Json.noConfusion h⟩

/-- **C2 amended**: a pass of TC008 forces a 200 response whose JSON-object
body contains each submitted key with a value Python-equal (`==`) to the
submitted one — exact for the two string fields, while the boolean fields
also accept the Python-equal numbers 1 and 0. -/
theorem C2_settings_echo (B : Backend) (h : tc008Passes B = true) :
    ∃ r, B (settingsPutReq settingsValidBody) = some r ∧ r.status = 200 ∧
      ∃ kvs, r.body = some (Json.obj kvs) ∧
        ∀ p ∈ settingsEchoPairs,
          ∃ w, kvs.lookup p.1 = some w ∧ pyEqScalar w p.2 = true := by
  unfold tc008Passes at h
  split at h
  · simp at h
  · rename_i resp h1
    simp only [Bool.and_eq_true] at h
    obtain ⟨hst, h⟩ := h
    split at h
    · simp at h
    · rename_i rj hb
      simp only [Bool.and_eq_true] at h
      obtain ⟨hecho, -⟩ := h
      rw [List.all_eq_true] at hecho
      -- the body must be a JSON object: for any other shape the subscript
      -- `resp_json[key]` yields no value and the first echo check fails
      cases rj with
      | obj kvs =>
        refine ⟨resp, h1, by simpa using hst, kvs, hb, ?_⟩
        intro p hp
        have hone := hecho p hp
        simp only [Bool.and_eq_true] at hone
        obtain ⟨-, hone⟩ := hone
        rcases hidx : pyIndex (Json.obj kvs) p.1 with _ | w <;> rw [hidx] at hone
        · simp at hone
        · exact ⟨w, by simpa [pyIndex] using hidx, hone⟩
      | null =>
        have hone := hecho ("mainLanguage", .str "en") (by simp [settingsEchoPairs])
        simp [pyIn, pyIndex] at hone
      | bool c =>
        have hone := hecho ("mainLanguage", .str "en") (by simp [settingsEchoPairs])
        simp [pyIn, pyIndex] at hone
      | num q =>
        have hone := hecho ("mainLanguage", .str "en") (by simp [settingsEchoPairs])
        simp [pyIn, pyIndex] at hone
      | str s =>
        have hone := hecho ("mainLanguage", .str "en") (by simp [settingsEchoPairs])
        simp [pyIn, pyIndex] at hone
      | arr xs =>
        have hone := hecho ("mainLanguage", .str "en") (by simp [settingsEchoPairs])
        simp [pyIn, pyIndex] at hone

/-- Witness for C2's amended theorem at a strictly echoing backend. -/
theorem C2_settings_echo_witness :
    ∃ r, goodSettingsBackend (settingsPutReq settingsValidBody) = some r ∧
      r.status = 200 ∧
      ∃ kvs, r.body = some (Json.obj kvs) ∧
        ∀ p ∈ settingsEchoPairs,
          ∃ w, kvs.lookup p.1 = some w ∧ pyEqScalar w p.2 = true :=
  C2_settings_echo goodSettingsBackend (by decide)

/-! ## TC003 — `test_get_lessons_with_valid_level_and_language_parameters` -/

/-- `GET /lessons` with the given query parameters. -/
def lessonsReq (ps : List (String × String)) : Request :=
  { method := .get, path := "/lessons", params := ps }

/-- TC003 lines 33–39: the per-lesson assertions for the level+language
query: each lesson is a dict with `level`, `title` and `lessonId` keys and
its `level` equals the requested `"B1"`. -/
def tc003LessonCheck (j : Json) : Bool :=
  j.isObj &&
  (pyIn j "level").getD false &&
  (pyIn j "title").getD false &&
  (pyIn j "lessonId").getD false &&
  match pyIndex j "level" with
  | some v => pyEqScalar v (.str "B1")
  | none => false

/-- TC003's repeated 200-with-list check (level-only, language-only and
no-parameter stages). -/
def tc003ListCheck (r : HttpResponse) : Bool :=
  r.status == 200 &&
  match r.body with
  | some j => j.isArr
  | none => false

/-- TC003 lines 84–95 / 105–114: the tolerant check for a malformed query
parameter — status 200 (with a list body) or 400, where the 400 branch runs
`error_json = response.json()` under `except Exception: error_json = None`
and then `assert error_json is not None`: an undecodable body *and* a body
that decodes to the bare JSON `null` (Python `None`) are both rejected. -/
def tc003MalformedCheck (r : HttpResponse) : Bool :=
  (r.status == 200 || r.status == 400) &&
  if r.status == 200 then
    match r.body with
    | some j => j.isArr
    | none => false
  else
    match r.body with
    | some .null => false
    | some _ => true
    | none => false

/-- Whether TC003 runs to the end with every assertion satisfied. -/
def tc003Passes (B : Backend) : Bool :=
  (match B (lessonsReq [("level", "B1"), ("language", "English")]) with
   | none => false
   | some r =>
     r.status == 200 &&
     match r.body with
     | none => false
     | some j =>
       match j with
       | .arr xs => xs.all tc003LessonCheck
       | _ => false) &&
  (match B (lessonsReq [("level", "B1")]) with
   | none => false
   | some r => tc003ListCheck r) &&
  (match B (lessonsReq [("language", "English")]) with
   | none => false
   | some r => tc003ListCheck r) &&
  (match B (lessonsReq []) with
   | none => false
   | some r => tc003ListCheck r) &&
  (match B (lessonsReq [("level", "Z9"), ("language", "English")]) with
   | none => false
   | some r => tc003MalformedCheck r) &&
  (match B (lessonsReq [("level", "B1"), ("language", "1234$%")]) with
   | none => false
   | some r => tc003MalformedCheck r)

/-- Claim C6's wording of the per-item contract: an object carrying the keys
`lessonId`, `title` and `level`, the latter equal to `"B1"`. -/
def c6ItemContract (j : Json) : Prop :=
  ∃ kvs, j = Json.obj kvs ∧ (kvs.lookup "lessonId").isSome ∧
    (kvs.lookup "title").isSome ∧ kvs.lookup "level" = some (.str "B1")

/-- The per-lesson check agrees with C6's item contract. -/
theorem tc003LessonCheck_iff (j : Json) :
    tc003LessonCheck j = true ↔ c6ItemContract j := by
  cases j with
  | obj kvs =>
    rcases hl : kvs.lookup "level" with _ | v
    · simp [tc003LessonCheck, c6ItemContract, pyIn, pyIndex, Json.isObj, hl]
    · cases v <;>
        (simp [tc003LessonCheck, c6ItemContract, pyIn, pyIndex, Json.isObj, hl,
          pyEqScalar]
         try tauto)
  | null => simp [tc003LessonCheck, c6ItemContract, Json.isObj]
  | bool c => simp [tc003LessonCheck, c6ItemContract, Json.isObj]
  | num q => simp [tc003LessonCheck, c6ItemContract, Json.isObj]
  | str s => simp [tc003LessonCheck, c6ItemContract, Json.isObj]
  | arr xs => simp [tc003LessonCheck, c6ItemContract, Json.isObj]

/-- A backend serving one well-formed B1 lesson for every lessons query. -/
def goodLessonsBackend : Backend := fun _ =>
  some ⟨200, some (.arr [.obj [("lessonId", .str "l1"), ("title", .str "T"),
                               ("level", .str "B1")]])⟩

/-- **C6**: the level-filter stage passes only with a 200 response whose body
is a JSON list all of whose items are objects with `lessonId`, `title` and
`level` keys and `level = "B1"`; the item check agrees with that contract. -/
theorem C6_lessons_level_filter :
    (∀ j, tc003LessonCheck j = true ↔ c6ItemContract j) ∧
    (∀ B, tc003Passes B = true →
      ∃ r, B (lessonsReq [("level", "B1"), ("language", "English")]) = some r ∧
        r.status = 200 ∧ ∃ xs, r.body = some (Json.arr xs) ∧
          ∀ j ∈ xs, c6ItemContract j) := by
  refine ⟨tc003LessonCheck_iff, ?_⟩
  intro B h
  unfold tc003Passes at h
  simp only [Bool.and_eq_true, and_assoc] at h
  obtain ⟨h1, -, -, -, -, -⟩ := h
  split at h1
  · simp at h1
  · rename_i r hr
    simp only [Bool.and_eq_true] at h1
    obtain ⟨hst, h1⟩ := h1
    split at h1
    · simp at h1
    · rename_i j hb
      cases j with
      | arr xs =>
        rw [List.all_eq_true] at h1
        exact ⟨r, hr, by simpa using hst, xs, hb,
          fun j hj => (tc003LessonCheck_iff j).mp (h1 j hj)⟩
      | null => simp at h1
      | bool c => simp at h1
      | num q => simp at h1
      | str s => simp at h1
      | obj kvs => simp at h1

/-- Witness for C6 at a concrete passing backend. -/
theorem C6_lessons_level_filter_witness :
    ∃ r, goodLessonsBackend (lessonsReq [("level", "B1"), ("language", "English")])
        = some r ∧
      r.status = 200 ∧ ∃ xs, r.body = some (Json.arr xs) ∧
        ∀ j ∈ xs, c6ItemContract j :=
  C6_lessons_level_filter.2 goodLessonsBackend (by decide)

/-- Claim C8's acceptance condition as stated: status 200 or 400 and no
other; a list body on 200; any decodable JSON body on 400. -/
def c8ClaimCond (r : HttpResponse) : Prop :=
  (r.status = 200 ∨ r.status = 400) ∧
  (r.status = 200 → ∃ xs, r.body = some (Json.arr xs)) ∧
  (r.status = 400 → ∃ j, r.body = some j)

/-- A backend answering the invalid-level query with a 400 whose body is the
bare JSON `null`, and every other lessons query with a good B1 list. -/
def nullErrorBackend : Backend := fun req =>
  match req.params.lookup "level" with
  | some "Z9" => some ⟨400, some .null⟩
  | _ => some ⟨200, some (.arr [.obj [("lessonId", .str "l1"),
                                      ("title", .str "T"),
                                      ("level", .str "B1")]])⟩

/-- **C8 counterexample**: a 400 response whose body is the JSON literal
`null` is decodable JSON — it satisfies the claim's condition — yet it
decodes to Python `None` and TC003's `assert error_json is not None` rejects
it: the malformed-query check fails on it and the whole scenario fails on a
backend returning it. -/
theorem C8_counterexample :
    c8ClaimCond ⟨400, some .null⟩ ∧
    tc003MalformedCheck ⟨400, some .null⟩ = false ∧
    tc003Passes nullErrorBackend = false :=
  ⟨⟨Or.inr rfl, fun h => absurd h (by decide), fun _ => ⟨.null, rfl⟩⟩,
   rfl, by decide⟩

/-- **C8 amended**: for a malformed `/lessons` query the scenario accepts
exactly the statuses 200 and 400 — with a list body required on 200, and on
400 a body that decodes to something other than `None`: both an undecodable
body and the bare JSON `null` are rejected.  A full pass forces both
malformed-query responses to satisfy that check. -/
theorem C8_malformed_query_tolerance :
    (∀ r, tc003MalformedCheck r = true ↔
      ((r.status = 200 ∨ r.status = 400) ∧
       (r.status = 200 → ∃ xs, r.body = some (Json.arr xs)) ∧
       (r.status = 400 → ∃ j, r.body = some j ∧ j ≠ Json.null))) ∧
    (∀ B, tc003Passes B = true →
      (∃ r, B (lessonsReq [("level", "Z9"), ("language", "English")]) = some r ∧
         tc003MalformedCheck r = true) ∧
      (∃ r, B (lessonsReq [("level", "B1"), ("language", "1234$%")]) = some r ∧
         tc003MalformedCheck r = true)) := by
  constructor
  · intro r
    obtain ⟨s, b⟩ := r
    by_cases h2 : s = 200
    · subst h2
      rcases b with _ | j
      · simp [tc003MalformedCheck]
      · cases j <;> simp [tc003MalformedCheck, Json.isArr]
    · by_cases h4 : s = 400
      · subst h4
        rcases b with _ | j
        · simp [tc003MalformedCheck]
        · cases j <;> simp [tc003MalformedCheck]
      · simp [tc003MalformedCheck, h2, h4]
  · intro B h
    unfold tc003Passes at h
    simp only [Bool.and_eq_true, and_assoc] at h
    obtain ⟨-, -, -, -, h5, h6⟩ := h
    constructor
    · split at h5
      · simp at h5
      · rename_i r hr
        exact ⟨r, hr, h5⟩
    · split at h6
      · simp at h6
      · rename_i r hr
        exact ⟨r, hr, h6⟩

/-- Witness for C8 at a concrete passing backend. -/
theorem C8_malformed_query_tolerance_witness :
    (∃ r, goodLessonsBackend (lessonsReq [("level", "Z9"), ("language", "English")])
        = some r ∧ tc003MalformedCheck r = true) ∧
    (∃ r, goodLessonsBackend (lessonsReq [("level", "B1"), ("language", "1234$%")])
        = some r ∧ tc003MalformedCheck r = true) :=
  C8_malformed_query_tolerance.2 goodLessonsBackend (by decide)

/-! ## TC004 — `test_start_lesson_with_valid_and_invalid_lessonid` -/

/-- TC004's plain `GET /lessons` precursor request. -/
def lessonsPlainReq : Request := { method := .get, path := "/lessons" }

/-- `POST /lessons/{id}/start`. -/
def startLessonReq (id : String) : Request :=
  { method := .post, path := "/lessons/" ++ id ++ "/start" }

/-- TC004 lines 25–29: the loop over invalid lesson ids, each expected to
draw a 400 or a 404. -/
def tc004InvalidLoop (B : Backend) : List String → Outcome
  | [] => .pass
  | id :: rest =>
    match B (startLessonReq id) with
    | none => .failTransport
    | some r =>
      if r.status == 400 || r.status == 404 then tc004InvalidLoop B rest
      else .failAssert

/-- Outcome of TC004.  `raise_for_status` on the lessons fetch raises
`HTTPError` — a `RequestException` — so a 4xx/5xx there is reported through
the transport branch (`"HTTP request failed"`); assertion failures are
re-asserted by the `except AssertionError` clause and keep the assertion
kind (`"Assertion failed"`); a `ValueError` from `.json()` or an
`AttributeError` from `lessons[0].get` on a non-dict first item is caught by
neither clause and crashes the script. -/
def tc004Run (B : Backend) : Outcome :=
  match B lessonsPlainReq with
  | none => .failTransport
  | some lr =>
    if decide (400 ≤ lr.status ∧ lr.status < 600) then .failTransport
    else match lr.body with
    | none => .crash
    | some lessons =>
      if !lessons.isArr then .failAssert
      else match lessons with
      | .arr [] => .failAssert
      | .arr (x :: _) =>
        (match pyGet x "lessonId" with
         | none => .crash
         | some vid =>
           if !(pyTruthy vid && vid.isStr) then .failAssert
           else match vid with
           | .str id =>
             (match B (startLessonReq id) with
              | none => .failTransport
              | some sr =>
                if sr.status != 200 then .failAssert
                else tc004InvalidLoop B
                  ["", "invalidLesson123", "00000000-0000-0000-0000-000000000000"])
           | _ => .failAssert)
      | _ => .failAssert

/-- Claim C7's precursor-data-unavailable condition on the lessons response:
body decodes but is not a list, is an empty list, or its first item is an
object without a usable (non-empty string) `lessonId`. -/
def c7PrecursorMissing (r : HttpResponse) : Prop :=
  ∃ j, r.body = some j ∧
    ((∀ xs, j ≠ Json.arr xs) ∨ j = Json.arr [] ∨
     ∃ kvs tl, j = Json.arr (Json.obj kvs :: tl) ∧
       ¬∃ s, (kvs.lookup "lessonId").getD .null = Json.str s ∧ s ≠ "")

/-- A `lessonId` value with no usable string fails the truthy-and-string
assertion of TC004 line 18. -/
theorem tc004_vid_fail (vid : Json)
    (hbad : ¬∃ s, vid = Json.str s ∧ s ≠ "") :
    (pyTruthy vid && vid.isStr) = false := by
  cases vid with
  | str s =>
    simp only [pyTruthy, Json.isStr, Bool.and_true]
    by_contra hne
    exact hbad ⟨s, rfl, by simpa [bne] using hne⟩
  | null => simp [pyTruthy]
  | bool c => simp [Json.isStr]
  | num q => simp [Json.isStr]
  | arr xs => simp [Json.isStr]
  | obj kvs => simp [Json.isStr]

/-- A backend whose lessons list is empty (precursor data unavailable). -/
def emptyLessonsBackend : Backend := fun _ => some ⟨200, some (.arr [])⟩

/-- A backend with a fine lessons list whose start endpoint violates the
contract (500 instead of 200). -/
def lessonsButBrokenStart : Backend := fun req =>
  if req.path == "/lessons" then
    some ⟨200, some (.arr [.obj [("lessonId", .str "l1"), ("title", .str "T"),
                                 ("level", .str "B1")]])⟩
  else some ⟨500, none⟩

/-- **C7 counterexample**: an empty lessons list (precursor unavailable) and
a contract violation on the start endpoint end TC004 with the *same*
assertion-failure outcome — there is no distinct `PrecursorFailure` kind in
the script's report. -/
theorem C7_counterexample :
    tc004Run emptyLessonsBackend = .failAssert ∧
    tc004Run lessonsButBrokenStart = .failAssert ∧
    tc004Run emptyLessonsBackend = tc004Run lessonsButBrokenStart :=
  ⟨by decide, by decide, by decide⟩

/-- **C7 amended**: when the precursor data is unavailable TC004 fails with
the script's assertion-failure kind — distinguishable from transport
failures, but identical to the kind a contract violation produces (see the
counterexample). -/
theorem C7_precursor_failure_kind :
    (∀ B r, B lessonsPlainReq = some r → ¬(400 ≤ r.status ∧ r.status < 600) →
      c7PrecursorMissing r → tc004Run B = .failAssert) ∧
    (∀ B, B lessonsPlainReq = none → tc004Run B = .failTransport) ∧
    Outcome.failAssert ≠ Outcome.failTransport := by
  refine ⟨?_, ?_, by decide⟩
  · intro B r h1 h2 hc
    obtain ⟨j, hj, hcase⟩ := hc
    have hcond : decide (400 ≤ r.status ∧ r.status < 600) = false := by
      simpa using h2
    rcases hcase with hna | hempty | ⟨kvs, tl, hjv, hbad⟩
    · cases j with
      | arr xs => exact absurd rfl (hna xs)
      | null => simp [tc004Run, h1, hcond, hj, Json.isArr]
      | bool c => simp [tc004Run, h1, hcond, hj, Json.isArr]
      | num q => simp [tc004Run, h1, hcond, hj, Json.isArr]
      | str s => simp [tc004Run, h1, hcond, hj, Json.isArr]
      | obj kvs => simp [tc004Run, h1, hcond, hj, Json.isArr]
    · subst hempty
      simp [tc004Run, h1, hcond, hj]
    · subst hjv
      have hvb := tc004_vid_fail ((kvs.lookup "lessonId").getD .null) hbad
      simp [tc004Run, h1, hcond, hj, pyGet, pyGetD, hvb]
  · intro B h1
    simp [tc004Run, h1]

/-- Witness for C7's amended theorem at the empty-lessons backend. -/
theorem C7_precursor_failure_kind_witness :
    tc004Run emptyLessonsBackend = .failAssert :=
  C7_precursor_failure_kind.1 emptyLessonsBackend ⟨200, some (.arr [])⟩ rfl
    (by decide) ⟨.arr [], rfl, Or.inr (Or.inl rfl)⟩

/-! ## TC007 — `test_get_supported_languages` -/

/-- `GET /languages`. -/
def languagesReq : Request := { method := .get, path := "/languages" }

/-- `isinstance(j[k], str) and j[k]`: the value under `k` is a non-empty
string. -/
def nonEmptyStrAt (j : Json) (k : String) : Bool :=
  match pyIndex j k with
  | some (.str s) => s != ""
  | _ => false

/-- TC007 lines 27–35: per-language-entry assertions — a dict carrying the
four required keys, each holding a non-empty string. -/
def tc007LangCheck (j : Json) : Bool :=
  j.isObj &&
  (pyIn j "code").getD false && (pyIn j "name").getD false &&
  (pyIn j "nativeName").getD false && (pyIn j "flag").getD false &&
  nonEmptyStrAt j "code" && nonEmptyStrAt j "name" &&
  nonEmptyStrAt j "nativeName" && nonEmptyStrAt j "flag"

/-- TC007 line 38: the expected language codes. -/
def expectedLanguageCodes : List String := ["en", "es", "fr", "it", "hr", "zh"]

/-- Whether some entry's `code` equals `c` (membership in `found_codes`). -/
def hasCode (xs : List Json) (c : String) : Bool :=
  xs.any fun j =>
    match pyIndex j "code" with
    | some (.str s) => s == c
    | _ => false

/-- Whether TC007 runs to the end with every assertion satisfied.
`raise_for_status` raises exactly for statuses in [400, 600), and that
`HTTPError` is caught as a `RequestException` and turned into a failure. -/
def tc007Passes (B : Backend) : Bool :=
  match B languagesReq with
  | none => false
  | some r =>
    !(decide (400 ≤ r.status ∧ r.status < 600)) &&
    match r.body with
    | none => false
    | some j =>
      match j with
      | .arr xs => xs.all tc007LangCheck && expectedLanguageCodes.all (hasCode xs)
      | _ => false

/-- Claim C5's wording of the per-entry contract. -/
def c5ItemContract (j : Json) : Prop :=
  ∃ kvs, j = Json.obj kvs ∧
    (∃ s, kvs.lookup "code" = some (Json.str s) ∧ s ≠ "") ∧
    (∃ s, kvs.lookup "name" = some (Json.str s) ∧ s ≠ "") ∧
    (∃ s, kvs.lookup "nativeName" = some (Json.str s) ∧ s ≠ "") ∧
    (∃ s, kvs.lookup "flag" = some (Json.str s) ∧ s ≠ "")

/-- `nonEmptyStrAt` on an object is a non-empty-string lookup. -/
theorem nonEmptyStrAt_obj_iff (kvs : List (String × Json)) (k : String) :
    nonEmptyStrAt (Json.obj kvs) k = true ↔
    ∃ s, kvs.lookup k = some (Json.str s) ∧ s ≠ "" := by
  rcases h : kvs.lookup k with _ | v
  · simp [nonEmptyStrAt, pyIndex, h]
  · cases v <;> simp [nonEmptyStrAt, pyIndex, h]

/-- The per-entry check agrees with C5's item contract. -/
theorem tc007LangCheck_iff (j : Json) :
    tc007LangCheck j = true ↔ c5ItemContract j := by
  cases j with
  | obj kvs =>
    simp only [tc007LangCheck, Bool.and_eq_true, Json.isObj, pyIn,
      Option.getD_some, nonEmptyStrAt_obj_iff, c5ItemContract,
      Option.isSome_iff_exists, Json.obj.injEq, Option.some.injEq]
    constructor
    · rintro ⟨⟨⟨⟨⟨⟨⟨⟨-, -⟩, -⟩, -⟩, -⟩, hc⟩, hn⟩, hnn⟩, hf⟩
      exact ⟨kvs, rfl, hc, hn, hnn, hf⟩
    · rintro ⟨kvs', rfl, ⟨c, hc, hc'⟩, ⟨n, hn, hn'⟩, ⟨nn, hnn, hnn'⟩, ⟨f, hf, hf'⟩⟩
      exact ⟨⟨⟨⟨⟨⟨⟨⟨trivial, _, hc⟩, _, hn⟩, _, hnn⟩, _, hf⟩, c, hc, hc'⟩,
        n, hn, hn'⟩, nn, hnn, hnn'⟩, f, hf, hf'⟩
  | null => simp [tc007LangCheck, Json.isObj, c5ItemContract]
  | bool c => simp [tc007LangCheck, Json.isObj, c5ItemContract]
  | num q => simp [tc007LangCheck, Json.isObj, c5ItemContract]
  | str s => simp [tc007LangCheck, Json.isObj, c5ItemContract]
  | arr xs => simp [tc007LangCheck, Json.isObj, c5ItemContract]

/-- `hasCode` finds an object entry whose `code` equals `c`. -/
theorem hasCode_iff (xs : List Json) (c : String) :
    hasCode xs c = true ↔
    ∃ j ∈ xs, ∃ kvs, j = Json.obj kvs ∧
      kvs.lookup "code" = some (Json.str c) := by
  unfold hasCode
  rw [List.any_eq_true]
  constructor
  · rintro ⟨j, hj, hm⟩
    cases j with
    | obj kvs =>
      simp only [pyIndex] at hm
      rcases hl : kvs.lookup "code" with _ | v <;> rw [hl] at hm
      · simp at hm
      · cases v <;> simp at hm
        case str s => exact ⟨_, hj, kvs, rfl, by rw [hl, hm]⟩
    | null => simp [pyIndex] at hm
    | bool b => simp [pyIndex] at hm
    | num q => simp [pyIndex] at hm
    | str s => simp [pyIndex] at hm
    | arr ys => simp [pyIndex] at hm
  · rintro ⟨j, hj, kvs, rfl, hl⟩
    exact ⟨_, hj, by simp [pyIndex, hl]⟩

/-- **C5 amended**: TC007 passes exactly when the `/languages` response has a
status outside [400,600) (`raise_for_status` does not require 200), a
JSON-list body whose entries all meet the item contract, and entries for all
six expected codes. -/
theorem C5_languages_contract (B : Backend) :
    tc007Passes B = true ↔
    ∃ r, B languagesReq = some r ∧ ¬(400 ≤ r.status ∧ r.status < 600) ∧
      ∃ xs, r.body = some (Json.arr xs) ∧
        (∀ j ∈ xs, c5ItemContract j) ∧
        ∀ c ∈ expectedLanguageCodes, ∃ j ∈ xs, ∃ kvs,
          j = Json.obj kvs ∧ kvs.lookup "code" = some (Json.str c) := by
  unfold tc007Passes
  rcases hB : B languagesReq with _ | r
  · simp [hB]
  · simp only [hB, Option.some.injEq]
    by_cases hst : 400 ≤ r.status ∧ r.status < 600
    · simp [hst]
    · rcases hbody : r.body with _ | j
      · simp [hbody, hst]
      · cases j with
        | arr xs =>
          simp [hbody, hst, List.all_eq_true, tc007LangCheck_iff, hasCode_iff]
          intro _ _
          omega
        | null => simp [hbody, hst]
        | bool c => simp [hbody, hst]
        | num q => simp [hbody, hst]
        | str s => simp [hbody, hst]
        | obj kvs => simp [hbody, hst]

/-- A well-formed list of the six expected languages. -/
def goodLanguagesJson : Json :=
  .arr (expectedLanguageCodes.map fun c =>
    .obj [("code", .str c), ("name", .str "L"), ("nativeName", .str "N"),
          ("flag", .str "F")])

/-- A backend answering 201 (not 200) with a well-formed language list. -/
def languages201Backend : Backend := fun _ => some ⟨201, some goodLanguagesJson⟩

/-- **C5 counterexample**: TC007 passes against a backend answering 201, so
the scenario does not require status 200 — `raise_for_status` lets every
status below 400 through. -/
theorem C5_counterexample :
    tc007Passes languages201Backend = true ∧
    languages201Backend languagesReq = some ⟨201, some goodLanguagesJson⟩ ∧
    (201 : Nat) ≠ 200 :=
  ⟨by decide, rfl, by decide⟩

/-! ## TC009 — `test_speech_to_text_conversion` -/

/-- `POST /speech/recognize` with the given multipart file parts. -/
def speechRecognizeReq (fs : List (String × String × String)) : Request :=
  { method := .post, path := "/speech/recognize", files := fs }

/-- TC009 test 1: the (partial) WAV upload. -/
def validAudioReq : Request :=
  speechRecognizeReq [("audio", "test.wav", "audio/wav")]

/-- TC009 test 2: the plain-text upload. -/
def invalidAudioReq : Request :=
  speechRecognizeReq [("audio", "test.txt", "text/plain")]

/-- TC009 test 3: the empty multipart request (`files={}`). -/
def missingAudioReq : Request := speechRecognizeReq []

/-- Python `x is None` on a decoded value. -/
def isPyNone : Json → Bool
  | .null => true
  | _ => false

/-- TC009 lines 24–31: assertions on the valid-audio response.  Python's
bool-is-int quirk makes `isinstance(c, (float, int))` and `0.0 <= c <= 1.0`
accept booleans too. -/
def tc009ValidStage (r : HttpResponse) : Bool :=
  r.status == 200 &&
  match r.body with
  | none => false
  | some jd =>
    (pyIn jd "text").getD false &&
    (match pyIndex jd "text" with
     | some t => t.isStr
     | none => false) &&
    (pyIn jd "confidence").getD false &&
    (match pyIndex jd "confidence" with
     | some (.num q) => decide ((0 : Rat) ≤ q ∧ q ≤ 1)
     | some (.bool _) => true
     | _ => false)

/-- TC009 lines 38–49: assertions on the invalid-audio response.  A 500 is
rejected outright; on 200 the script reads `text` and `confidence` with
`.get` and accepts when `text` is `None`/empty or `confidence` is `None`/0
(Python `==`, under which `False == 0` too); any other status must lie in
[400,500). -/
def tc009InvalidStage (r : HttpResponse) : Bool :=
  (r.status != 500) &&
  if r.status == 200 then
    match r.body with
    | none => false
    | some jd =>
      match pyGet jd "text" with
      | none => false
      | some t =>
        match pyGet jd "confidence" with
        | none => false
        | some c =>
          isPyNone t || pyEqScalar t (.str "") ||
          isPyNone c || pyEqScalar c (.num 0)
  else decide (400 ≤ r.status ∧ r.status < 500)

/-- TC009 lines 56–59: assertions on the missing-audio response. -/
def tc009MissingStage (r : HttpResponse) : Bool :=
  (r.status != 500) && decide (400 ≤ r.status ∧ r.status < 500)

/-- Whether TC009 runs to the end with every assertion satisfied. -/
def tc009Passes (B : Backend) : Bool :=
  (match B validAudioReq with
   | none => false
   | some r => tc009ValidStage r) &&
  (match B invalidAudioReq with
   | none => false
   | some r => tc009InvalidStage r) &&
  (match B missingAudioReq with
   | none => false
   | some r => tc009MissingStage r)

/-- Claim C10's acceptance condition on a 200 JSON-object body, reading
"missing" as Python `None` (absent key or JSON null — the script uses
`.get`) and "equal to 0" as Python `==`. -/
def c10AcceptCond (kvs : List (String × Json)) : Prop :=
  (kvs.lookup "text").getD .null = Json.null ∨
  (kvs.lookup "text").getD .null = Json.str "" ∨
  (kvs.lookup "confidence").getD .null = Json.null ∨
  pyEqScalar ((kvs.lookup "confidence").getD .null) (Json.num 0) = true

/-- `isPyNone` detects exactly the null value. -/
theorem isPyNone_iff (j : Json) : isPyNone j = true ↔ j = Json.null := by
  cases j <;> simp [isPyNone]

/-- Python `== ""` holds exactly for the empty string value. -/
theorem pyEqScalar_emptyStr_iff (j : Json) :
    pyEqScalar j (Json.str "") = true ↔ j = Json.str "" := by
  cases j <;> simp [pyEqScalar]

/-- **C10**: the invalid-audio stage of TC009 accepts every status in
[400,500), always rejects 500, and accepts a 200 response with a JSON-object
body exactly under C10's condition — in particular a 200 carrying non-empty
text together with confidence 0 passes. -/
theorem C10_speech_invalid_audio :
    (∀ r : HttpResponse, 400 ≤ r.status → r.status < 500 →
      tc009InvalidStage r = true) ∧
    (∀ b, tc009InvalidStage ⟨500, b⟩ = false) ∧
    (∀ kvs, tc009InvalidStage ⟨200, some (.obj kvs)⟩ = true ↔ c10AcceptCond kvs) ∧
    tc009InvalidStage ⟨200, some (.obj [("text", .str "hello"),
                                        ("confidence", .num 0)])⟩ = true := by
  refine ⟨?_, ?_, ?_, by decide⟩
  · intro r h1 h2
    have h5 : (r.status != 500) = true := by
      simp only [bne_iff_ne, ne_eq]
      omega
    have h200 : (r.status == 200) = false := by
      simp only [beq_eq_false_iff_ne, ne_eq]
      omega
    simp [tc009InvalidStage, h5, h200, h1, h2]
  · intro b
    simp [tc009InvalidStage]
  · intro kvs
    simp [tc009InvalidStage, pyGet, pyGetD, c10AcceptCond, isPyNone_iff,
      pyEqScalar_emptyStr_iff]
    tauto

/-- Witness for C10's first conjunct at a concrete 4xx response. -/
theorem C10_speech_invalid_audio_witness :
    tc009InvalidStage ⟨404, none⟩ = true :=
  C10_speech_invalid_audio.1 ⟨404, none⟩ (by decide) (by decide)

/-! ## TC010 — `test_text_to_speech_synthesis` -/

/-- `POST /speech/synthesize` with JSON body `b`. -/
def synthesizeReq (b : Json) : Request :=
  { method := .post, path := "/speech/synthesize", body := some b }

/-- TC010's valid payload. -/
def synthValidBody : Json :=
  .obj [("text", .str "Hello, world!"), ("language", .str "en"),
        ("voice", .str "default")]

/-- TC010 lines 30–33: missing `text`. -/
def synthMissingTextBody : Json :=
  .obj [("language", .str "en"), ("voice", .str "default")]

/-- TC010 lines 41–44: missing `language`. -/
def synthMissingLanguageBody : Json :=
  .obj [("text", .str "Hello again"), ("voice", .str "default")]

/-- TC010 lines 52–55: missing `voice`. -/
def synthMissingVoiceBody : Json :=
  .obj [("text", .str "Hello once more"), ("language", .str "en")]

/-- TC010 lines 63–67: invalid language code. -/
def synthInvalidLanguageBody : Json :=
  .obj [("text", .str "Bonjour"), ("language", .str "xx-invalid"),
        ("voice", .str "default")]

/-- TC010 lines 75–79: invalid voice. -/
def synthInvalidVoiceBody : Json :=
  .obj [("text", .str "Hola"), ("language", .str "es"),
        ("voice", .str "unknown-voice")]

/-- The five invalid payloads, in script order. -/
def synthInvalidBodies : List Json :=
  [synthMissingTextBody, synthMissingLanguageBody, synthMissingVoiceBody,
   synthInvalidLanguageBody, synthInvalidVoiceBody]

/-- Python `s.startswith(pre)`. -/
def pyStartsWith (s pre : String) : Bool := pre.data.isPrefixOf s.data

/-- TC010 lines 20–27: the valid-synthesis assertions (every exception is
caught and re-asserted, so all failures count as assertion failures). -/
def tc010ValidStage (r : HttpResponse) : Bool :=
  r.status == 200 &&
  match r.body with
  | none => false
  | some jd =>
    (pyIn jd "audioUrl").getD false &&
    match pyIndex jd "audioUrl" with
    | some (.str s) => pyStartsWith s "http"
    | _ => false

/-- Whether TC010 runs to the end with every assertion satisfied: the valid
payload must meet its stage, and each invalid payload draws `status >= 400`
(the script places no upper bound). -/
def tc010Passes (B : Backend) : Bool :=
  (match B (synthesizeReq synthValidBody) with
   | none => false
   | some r => tc010ValidStage r) &&
  synthInvalidBodies.all fun b =>
    match B (synthesizeReq b) with
    | none => false
    | some r => decide (400 ≤ r.status)

/-- The valid-synthesis stage passes exactly on a 200 JSON-object response
whose `audioUrl` is a string starting with `"http"`. -/
theorem tc010ValidStage_iff (r : HttpResponse) :
    tc010ValidStage r = true ↔
    (r.status = 200 ∧ ∃ kvs, r.body = some (Json.obj kvs) ∧
      ∃ s, kvs.lookup "audioUrl" = some (Json.str s) ∧
        pyStartsWith s "http" = true) := by
  obtain ⟨s, b⟩ := r
  by_cases hs : s = 200
  · subst hs
    rcases b with _ | jd
    · simp [tc010ValidStage]
    · cases jd with
      | obj kvs =>
        rcases hl : kvs.lookup "audioUrl" with _ | v
        · simp [tc010ValidStage, pyIn, pyIndex, hl]
        · cases v <;> simp [tc010ValidStage, pyIn, pyIndex, hl]
      | null => simp [tc010ValidStage, pyIn]
      | bool c => simp [tc010ValidStage, pyIn]
      | num q => simp [tc010ValidStage, pyIn]
      | str s2 => simp [tc010ValidStage, pyIndex]
      | arr xs => simp [tc010ValidStage, pyIndex]
  · simp [tc010ValidStage, hs]

/-- A backend answering 500 to everything except the exact valid payload. -/
def synth500Backend : Backend := fun req =>
  match bodyField req "text" with
  | some (.str "Hello, world!") =>
    some ⟨200, some (.obj [("audioUrl", .str "http://audio.example/a.mp3")])⟩
  | _ => some ⟨500, none⟩

/-- **C4 counterexample**: TC010 passes against a backend answering 500 to
the missing-text request — the script only asserts `status >= 400`, so a 5xx
server error, which is not in [400,500), also passes every invalid-field
stage. -/
theorem C4_counterexample :
    tc010Passes synth500Backend = true ∧
    synth500Backend (synthesizeReq synthMissingTextBody) = some ⟨500, none⟩ ∧
    ¬((500 : Nat) < 500) :=
  ⟨by decide, rfl, by decide⟩

/-- **C4 amended**: each invalid-field request passes only with a status
≥ 400 (any 4xx *or 5xx*); the valid request passes exactly with a 200 whose
`audioUrl` string starts with `"http"`. -/
theorem C4_synthesize_checks :
    (∀ r, tc010ValidStage r = true ↔
      (r.status = 200 ∧ ∃ kvs, r.body = some (Json.obj kvs) ∧
        ∃ s, kvs.lookup "audioUrl" = some (Json.str s) ∧
          pyStartsWith s "http" = true)) ∧
    (∀ B, tc010Passes B = true →
      (∃ r, B (synthesizeReq synthValidBody) = some r ∧
        tc010ValidStage r = true) ∧
      ∀ b ∈ synthInvalidBodies,
        ∃ r, B (synthesizeReq b) = some r ∧ 400 ≤ r.status) := by
  refine ⟨tc010ValidStage_iff, ?_⟩
  intro B h
  unfold tc010Passes at h
  simp only [Bool.and_eq_true] at h
  obtain ⟨h1, h2⟩ := h
  constructor
  · split at h1
    · simp at h1
    · rename_i r hr
      exact ⟨r, hr, h1⟩
  · rw [List.all_eq_true] at h2
    intro b hb
    have hone := h2 b hb
    split at hone
    · simp at hone
    · rename_i r hr
      exact ⟨r, hr, by simpa using hone⟩

/-- A backend answering 400 to every payload except the exact valid one. -/
def synthGoodBackend : Backend := fun req =>
  match bodyField req "text" with
  | some (.str "Hello, world!") =>
    some ⟨200, some (.obj [("audioUrl", .str "http://audio.example/a.mp3")])⟩
  | _ => some ⟨400, none⟩

/-- Witness for C4's amended theorem at a concrete passing backend. -/
theorem C4_synthesize_checks_witness :
    (∃ r, synthGoodBackend (synthesizeReq synthValidBody) = some r ∧
      tc010ValidStage r = true) ∧
    ∀ b ∈ synthInvalidBodies,
      ∃ r, synthGoodBackend (synthesizeReq b) = some r ∧ 400 ≤ r.status :=
  C4_synthesize_checks.2 synthGoodBackend (by decide)

end LinguApp
